import Mathlib

/-!
Shallow embedding of the kube-guard admission controller (src/main.py).

The Python program traverses loosely-typed JSON dictionaries; absent keys
are modelled with `Option`, and every `.get(key, default)` of the source
becomes an `Option.getD`.  Wall-clock time (`datetime.now()`) and the
outcome of the outbound HTTP call (`requests.post`) are external inputs,
so they are passed as explicit parameters.  Python exception flow is
modelled with `Except`: a `.error` is a raised exception propagating to
the caller, and each `try/except` of the source appears as a `match`
converting `.error` into a normal result.
-/

/-- The `kind` sub-dictionary of an admission request: `{"kind": ...}`. -/
structure KindRef where
  kind : Option String
deriving Repr, DecidableEq

/-- The `userInfo` sub-dictionary: `{"username": ..., "groups": [...]}`. -/
structure UserInfo where
  username : Option String
  groups : Option (List String)
deriving Repr, DecidableEq

/-- The admission request dictionary, i.e. `admission_review["request"]`.
Only the keys the program reads are modelled. -/
structure AdmissionRequest where
  uid : Option String
  kind : Option KindRef
  namespace_ : Option String
  name : Option String
  userInfo : Option UserInfo
deriving Repr, DecidableEq

/-- The `mattermost` section of the config dictionary. -/
structure MattermostConfig where
  webhook_url : Option String
  channel : Option String
deriving Repr, DecidableEq

/-- The `notifications` section of the config dictionary. -/
structure NotificationsConfig where
  shell_access : Option Bool
  port_forward : Option Bool
deriving Repr, DecidableEq

/-- `self.config_data`: the configuration dictionary of the controller. -/
structure ConfigData where
  mattermost : Option MattermostConfig
  monitored_namespace : Option String
  notifications : Option NotificationsConfig
  cluster_name : Option String
deriving Repr, DecidableEq

/-- `self.config_data.get('mattermost', {}).get('webhook_url')`. -/
def ConfigData.webhookUrl (cfg : ConfigData) : Option String :=
  (cfg.mattermost.getD { webhook_url := none, channel := none }).webhook_url

/-- `self.config_data.get('mattermost', {}).get('channel', 'alerts')`. -/
def ConfigData.channelName (cfg : ConfigData) : String :=
  ((cfg.mattermost.getD { webhook_url := none, channel := none }).channel).getD "alerts"

/-- `self.config_data.get('monitored_namespace', 'my-namespace')`. -/
def ConfigData.monitoredNamespace (cfg : ConfigData) : String :=
  cfg.monitored_namespace.getD "my-namespace"

/-- `self.config_data.get('notifications', {}).get('shell_access', True)`. -/
def ConfigData.notifyShellAccess (cfg : ConfigData) : Bool :=
  ((cfg.notifications.getD { shell_access := none, port_forward := none }).shell_access).getD true

/-- `self.config_data.get('notifications', {}).get('port_forward', True)`. -/
def ConfigData.notifyPortForward (cfg : ConfigData) : Bool :=
  ((cfg.notifications.getD { shell_access := none, port_forward := none }).port_forward).getD true

/-- `self.config_data.get('cluster_name','in-cluster')`. -/
def ConfigData.clusterName (cfg : ConfigData) : String :=
  cfg.cluster_name.getD "in-cluster"

/-- `admission_request.get('kind', {}).get('kind')`: the requested resource
kind, `none` when either level of the dictionary is absent. -/
def AdmissionRequest.kindKind (ar : AdmissionRequest) : Option String :=
  (ar.kind.getD { kind := none }).kind

/-- `KubeGuardController.is_shell_access` (src/main.py lines 93-100). -/
def is_shell_access (cfg : ConfigData) (ar : AdmissionRequest) : Bool :=
  if ar.kindKind ≠ some "PodExecOptions" then false
  else
    let ns := ar.namespace_.getD ""
    ns = cfg.monitoredNamespace

/-- `KubeGuardController.is_port_forward` (src/main.py lines 102-109). -/
def is_port_forward (cfg : ConfigData) (ar : AdmissionRequest) : Bool :=
  if ar.kindKind ≠ some "PodPortForwardOptions" then false
  else
    let ns := ar.namespace_.getD ""
    ns = cfg.monitoredNamespace

/-- `KubeGuardController.get_user_info` (src/main.py lines 111-116):
returns `(username, groups)` with defaults `'unknown'` and `[]`. -/
def get_user_info (ar : AdmissionRequest) : String × List String :=
  let user_info := ar.userInfo.getD { username := none, groups := none }
  (user_info.username.getD "unknown", user_info.groups.getD [])

/-- The typed sensitive-action events of the specification's Classifier. -/
inductive SensitiveEventType where
  | shellAccess
  | portForward
deriving Repr, DecidableEq

/-- The spec's Event Classifier: the ordered `if is_shell_access / elif
is_port_forward` chain of `process_admission_request`, first match wins. -/
def classify (cfg : ConfigData) (ar : AdmissionRequest) : Option SensitiveEventType :=
  if is_shell_access cfg ar then some .shellAccess
  else if is_port_forward cfg ar then some .portForward
  else none

/-- A calendar instant, standing for a Python `datetime` value.  Field
ranges are whatever `datetime.now()` returns; theorems that need the
rendered widths assume the ranges `datetime` guarantees. -/
structure DateTime where
  year : Nat
  month : Nat
  day : Nat
  hour : Nat
  minute : Nat
  second : Nat
deriving Repr, DecidableEq

/-- Decimal digit characters of a natural number, most significant first
(the rendering used by `%d`-style formatting). -/
def natRepr (n : Nat) : List Char :=
  if h : n < 10 then [Char.ofNat (48 + n)]
  else natRepr (n / 10) ++ [Char.ofNat (48 + n % 10)]
termination_by n
decreasing_by exact Nat.div_lt_self (by omega) (by omega)

/-- Zero-padding to a minimum width, as in `%02d` / `%04d`. -/
def zeroPad (w : Nat) (cs : List Char) : List Char :=
  List.replicate (w - cs.length) '0' ++ cs

/-- `datetime.strftime('%Y-%m-%d %H:%M:%S UTC')` (src/main.py lines 133, 140). -/
def strftimeTimestamp (d : DateTime) : String :=
  String.mk (zeroPad 4 (natRepr d.year)
    ++ ('-' :: zeroPad 2 (natRepr d.month))
    ++ ('-' :: zeroPad 2 (natRepr d.day))
    ++ (' ' :: zeroPad 2 (natRepr d.hour))
    ++ (':' :: zeroPad 2 (natRepr d.minute))
    ++ (':' :: zeroPad 2 (natRepr d.second))
    ++ " UTC".toList)

/-- The message built for a shell-access event (src/main.py lines 131-133). -/
def shellAccessMessage (cluster username ns pod : String) (now : DateTime) : String :=
  ":warning: **Shell Access Alert** on cluster `" ++ cluster ++ "`\n"
    ++ "User `" ++ username ++ "` opened a shell to pod `" ++ ns ++ "/" ++ pod ++ "`\n"
    ++ "Time: " ++ strftimeTimestamp now

/-- The message built for a port-forward event (src/main.py lines 138-140).
The source's f-string is missing the closing backtick after the cluster
name; the embedding reproduces that verbatim. -/
def portForwardMessage (cluster username ns pod : String) (now : DateTime) : String :=
  ":warning: **Port Forward Alert** on cluster `" ++ cluster ++ "\n"
    ++ "User `" ++ username ++ "` created a port-forward to pod `" ++ ns ++ "/" ++ pod ++ "`\n"
    ++ "Time: " ++ strftimeTimestamp now

/-- The Alert Formatter: the per-event-type message construction of
`process_admission_request`. -/
def formatMessage (e : SensitiveEventType) (cluster username ns pod : String)
    (now : DateTime) : String :=
  match e with
  | .shellAccess => shellAccessMessage cluster username ns pod now
  | .portForward => portForwardMessage cluster username ns pod now

/-- The JSON payload of the outbound Mattermost POST (src/main.py lines 79-84). -/
structure MattermostPayload where
  channel : String
  username : String
  text : String
  icon_emoji : String
deriving Repr, DecidableEq

/-- One outbound HTTP call: `requests.post(webhook_url, json=payload, timeout=10)`. -/
structure HttpCall where
  url : String
  payload : MattermostPayload
  timeoutSeconds : Nat
deriving Repr, DecidableEq

/-- The environment's response to the outbound POST: either `requests.post`
raises (network failure, timeout), or it returns a status code. -/
inductive HttpOutcome where
  | raised (msg : String)
  | status (code : Nat)
deriving Repr, DecidableEq

/-- Does this outcome make the `try` block of the dispatcher fail?
`response.raise_for_status()` raises exactly for status codes ≥ 400. -/
def HttpOutcome.fails : HttpOutcome → Bool
  | .raised _ => true
  | .status code => 400 ≤ code

/-- The `try` body of `send_mattermost_notification`: perform the POST,
then `raise_for_status`.  A `.error` is a raised exception. -/
def sendTryBody (http : HttpOutcome) : Except String Unit :=
  match http with
  | .raised m => .error m
  | .status code => if 400 ≤ code then .error ("HTTP error " ++ toString code) else .ok ()

/-- What one call to the dispatcher did: the outbound calls performed, the
`logger.warning` for a missing webhook URL, and the `logger.error` of the
`except` clause when the call failed. -/
structure SendResult where
  calls : List HttpCall
  warnedNotConfigured : Bool
  errorLogged : Option String
deriving Repr, DecidableEq

/-- `KubeGuardController.send_mattermost_notification` (src/main.py lines
70-91).  The result is `Except`-valued so that a raised exception could
propagate to the caller; the source's `except Exception` turns every
failure of the `try` body into a normal return with a logged error.
`if not webhook_url` is Python truthiness: both an absent key and the
empty string take the warning branch. -/
def send_mattermost_notification (cfg : ConfigData) (message : String)
    (username : String) (http : HttpOutcome) : Except String SendResult :=
  match cfg.webhookUrl with
  | none => .ok { calls := [], warnedNotConfigured := true, errorLogged := none }
  | some url =>
    if url = "" then
      .ok { calls := [], warnedNotConfigured := true, errorLogged := none }
    else
      let payload : MattermostPayload :=
        { channel := "#" ++ cfg.channelName
          username := username
          text := message
          icon_emoji := ":warning:" }
      let call : HttpCall := { url := url, payload := payload, timeoutSeconds := 10 }
      match sendTryBody http with
      | .ok _ => .ok { calls := [call], warnedNotConfigured := false, errorLogged := none }
      | .error e => .ok { calls := [call], warnedNotConfigured := false, errorLogged := some e }

/-- Observable side effects of one pipeline run: how many times the
classifier predicates were consulted and which outbound calls happened. -/
structure Trace where
  classifierCalls : Nat
  httpCalls : List HttpCall
deriving Repr, DecidableEq

/-- The `message` variable of `process_admission_request` (src/main.py
lines 126-140): the optional alert text built by the `if is_shell_access /
elif is_port_forward` chain, gated by the per-type notification toggles. -/
def pipelineMessage (cfg : ConfigData) (ar : AdmissionRequest)
    (now : DateTime) : Option String :=
  let username := (get_user_info ar).1
  let ns := ar.namespace_.getD ""
  let cluster_name := cfg.clusterName
  if is_shell_access cfg ar then
    if cfg.notifyShellAccess then
      some (shellAccessMessage cluster_name username ns (ar.name.getD "unknown") now)
    else none
  else if is_port_forward cfg ar then
    if cfg.notifyPortForward then
      some (portForwardMessage cluster_name username ns (ar.name.getD "unknown") now)
    else none
  else none

/-- `KubeGuardController.process_admission_request` (src/main.py lines
118-146).  Builds the optional message and dispatches it; its own
`try/except` catches any exception, so the function always returns
normally. -/
def process_admission_request (cfg : ConfigData) (ar : AdmissionRequest)
    (now : DateTime) (http : HttpOutcome) : Trace :=
  match pipelineMessage cfg ar now with
  | some m =>
    match send_mattermost_notification cfg m "KubeGuard" http with
    | .ok r => { classifierCalls := 1, httpCalls := r.calls }
    | .error _ => { classifierCalls := 1, httpCalls := [] }
  | none => { classifierCalls := 1, httpCalls := [] }

/-- The inbound admission-review body once `request.get_json()` produced a
JSON object; `request := none` models a body without the `request` key. -/
structure ReviewBody where
  request : Option AdmissionRequest
deriving Repr, DecidableEq

/-- The admission response emitted by `/validate` (src/main.py lines 180-183). -/
structure AdmissionResponse where
  uid : Option String
  allowed : Bool
deriving Repr, DecidableEq

/-- The 200 body of `/validate` (src/main.py lines 185-189). -/
structure ValidateOk where
  apiVersion : String
  kind : String
  response : AdmissionResponse
deriving Repr, DecidableEq

/-- HTTP-level result of the `/validate` handler: 200 with an admission
review, 400 `Invalid admission review`, or 500 from the boundary catch. -/
inductive ValidateResult where
  | ok (body : ValidateOk)
  | badRequest
  | internalError (e : String)
deriving Repr, DecidableEq

/-- The `/validate` handler (src/main.py lines 165-193).  `body = none`
models a request whose JSON is absent/null; `some review` a JSON object.
Returns the handler's HTTP result together with the side-effect trace. -/
def validate (cfg : ConfigData) (body : Option ReviewBody)
    (now : DateTime) (http : HttpOutcome) : ValidateResult × Trace :=
  match body with
  | none => (.badRequest, { classifierCalls := 0, httpCalls := [] })
  | some review =>
    match review.request with
    | none => (.badRequest, { classifierCalls := 0, httpCalls := [] })
    | some ar =>
      let t := process_admission_request cfg ar now http
      (.ok { apiVersion := "admission.k8s.io/v1"
             kind := "AdmissionReview"
             response := { uid := ar.uid, allowed := true } }, t)

/-- The base64 alphabet (RFC 4648), as used by `base64.b64encode`. -/
def base64Table : List Char :=
  "ABCDEFGHIJKLMNOPQRSTUVWXYZabcdefghijklmnopqrstuvwxyz0123456789+/".toList

/-- The base64 character for a 6-bit value. -/
def b64Char (n : Nat) : Char := base64Table.getD n 'A'

/-- `base64.b64encode` over a byte list. -/
def base64Encode : List Nat → String
  | [] => ""
  | [a] =>
    String.mk [b64Char (a / 4), b64Char (a % 4 * 16), '=', '=']
  | [a, b] =>
    String.mk [b64Char (a / 4), b64Char (a % 4 * 16 + b / 16), b64Char (b % 16 * 4), '=']
  | a :: b :: c :: rest =>
    String.mk [b64Char (a / 4), b64Char (a % 4 * 16 + b / 16),
               b64Char (b % 16 * 4 + c / 64), b64Char (c % 64)]
      ++ base64Encode rest

/-- `str.encode()`: UTF-8 bytes of a string (ASCII suffices here). -/
def strBytes (s : String) : List Nat := s.toList.map Char.toNat

/-- The admission response emitted by `/mutate` (src/main.py lines 203-208). -/
structure MutateResponse where
  uid : Option String
  allowed : Bool
  patchType : String
  patch : String
deriving Repr, DecidableEq

/-- The 200 body of `/mutate` (src/main.py lines 210-214). -/
structure MutateOk where
  apiVersion : String
  kind : String
  response : MutateResponse
deriving Repr, DecidableEq

/-- HTTP-level result of the `/mutate` handler: 200, or 500 from the
boundary catch (there is no 400 branch in this handler). -/
inductive MutateResult where
  | ok (body : MutateOk)
  | internalError (e : String)
deriving Repr, DecidableEq

/-- Is this result the 500 branch? -/
def MutateResult.isInternalError : MutateResult → Bool
  | .internalError _ => true
  | .ok _ => false

/-- The `/mutate` handler (src/main.py lines 195-218).  It subscripts
`admission_review['request']` without a presence check, so an absent body
(`None['request']`, a TypeError) or a body without the key (a KeyError)
raises and is converted to a 500 by the boundary `except`.  The handler
never consults the classifier or the dispatcher, so its trace is empty. -/
def mutate (body : Option ReviewBody) : MutateResult × Trace :=
  match body with
  | none =>
    (.internalError "TypeError: NoneType object is not subscriptable",
     { classifierCalls := 0, httpCalls := [] })
  | some review =>
    match review.request with
    | none =>
      (.internalError "KeyError: request", { classifierCalls := 0, httpCalls := [] })
    | some ar =>
      (.ok { apiVersion := "admission.k8s.io/v1"
             kind := "AdmissionReview"
             response :=
               { uid := ar.uid
                 allowed := true
                 patchType := "JSONPatch"
                 patch := base64Encode (strBytes "[]") } },
       { classifierCalls := 0, httpCalls := [] })

/-- `sub` occurs as a contiguous substring of `s`. -/
def ContainsStr (s sub : String) : Prop :=
  ∃ p q : List Char, s.data = p ++ sub.data ++ q

theorem containsStr_of_data {s sub : String} (p q : List Char)
    (h : s.data = p ++ sub.data ++ q) : ContainsStr s sub :=
  ⟨p, q, h⟩

theorem containsStr_self (s : String) : ContainsStr s s :=
  ⟨[], [], by simp⟩

theorem containsStr_append_left (a : String) {b sub : String}
    (h : ContainsStr b sub) : ContainsStr (a ++ b) sub := by
  obtain ⟨p, q, hb⟩ := h
  exact ⟨a.data ++ p, q, by simp [String.data_append, hb]⟩

theorem containsStr_append_right {a sub : String} (b : String)
    (h : ContainsStr a sub) : ContainsStr (a ++ b) sub := by
  obtain ⟨p, q, ha⟩ := h
  exact ⟨p, q ++ b.data, by simp [String.data_append, ha]⟩

/-- A character-level shape pattern: `N` stands for a decimal digit, any
other pattern character must occur literally. -/
def matchTS : List Char → List Char → Bool
  | [], [] => true
  | p :: ps, c :: cs => (if p = 'N' then c.isDigit else p = c) && matchTS ps cs
  | _, _ => false

/-- The shape `YYYY-MM-DD HH:MM:SS UTC` of the claimed timestamp rendering. -/
def tsPattern : List Char := "NNNN-NN-NN NN:NN:NN UTC".toList

theorem matchTS_append : ∀ {p₁ c₁ : List Char} {p₂ c₂ : List Char},
    matchTS p₁ c₁ = true → matchTS p₂ c₂ = true →
    matchTS (p₁ ++ p₂) (c₁ ++ c₂) = true := by
  intro p₁
  induction p₁ with
  | nil =>
    intro c₁ p₂ c₂ h₁ h₂
    cases c₁ with
    | nil => simpa using h₂
    | cons c cs => simp [matchTS] at h₁
  | cons p ps ih =>
    intro c₁ p₂ c₂ h₁ h₂
    cases c₁ with
    | nil => simp [matchTS] at h₁
    | cons c cs =>
      simp only [matchTS, Bool.and_eq_true] at h₁
      simp only [List.cons_append, matchTS, Bool.and_eq_true]
      exact ⟨h₁.1, ih h₁.2 h₂⟩

theorem matchTS_cons {ps cs : List Char} (c : Char) (hc : ¬ c = 'N')
    (h : matchTS ps cs = true) : matchTS (c :: ps) (c :: cs) = true := by
  simp [matchTS, hc, h]

theorem matchTS_digitsRun : ∀ cs : List Char, (∀ c ∈ cs, c.isDigit = true) →
    matchTS (List.replicate cs.length 'N') cs = true := by
  intro cs
  induction cs with
  | nil => intro _; rfl
  | cons c cs ih =>
    intro h
    simp only [List.length_cons, List.replicate_succ, matchTS, if_pos rfl,
      Bool.and_eq_true]
    exact ⟨h c (by simp), ih (fun x hx => h x (by simp [hx]))⟩

theorem digitChar_isDigit (n : Nat) (h : n < 10) :
    (Char.ofNat (48 + n)).isDigit = true := by
  interval_cases n <;> decide

theorem natRepr_digits (n : Nat) : ∀ c ∈ natRepr n, c.isDigit = true := by
  induction n using Nat.strong_induction_on with
  | _ n ih =>
    rw [natRepr]
    split
    · intro c hc
      simp only [List.mem_singleton] at hc
      subst hc
      exact digitChar_isDigit n (by omega)
    · intro c hc
      rw [List.mem_append] at hc
      rcases hc with h | h
      · exact ih (n / 10) (Nat.div_lt_self (by omega) (by omega)) c h
      · simp only [List.mem_singleton] at h
        subst h
        exact digitChar_isDigit (n % 10) (Nat.mod_lt _ (by omega))

theorem natRepr_length_le : ∀ n w : Nat, 0 < w → n < 10 ^ w →
    (natRepr n).length ≤ w := by
  intro n
  induction n using Nat.strong_induction_on with
  | _ n ih =>
    intro w hw hn
    rw [natRepr]
    split
    · simpa using hw
    · rename_i hge
      have hw2 : 2 ≤ w := by
        by_contra hc
        have : w = 1 := by omega
        subst this
        simp at hn
        omega
      have hdiv : n / 10 < 10 ^ (w - 1) := by
        apply Nat.div_lt_of_lt_mul
        have : 10 ^ (w - 1) * 10 = 10 ^ w := by
          rw [← pow_succ]
          congr 1
          omega
        omega
      have hlen := ih (n / 10) (Nat.div_lt_self (by omega) (by omega))
        (w - 1) (by omega) hdiv
      simp only [List.length_append, List.length_singleton]
      omega

theorem zeroPad_length (w : Nat) (cs : List Char) (h : cs.length ≤ w) :
    (zeroPad w cs).length = w := by
  simp only [zeroPad, List.length_append, List.length_replicate]
  omega

theorem zeroPad_digits (w : Nat) (cs : List Char)
    (h : ∀ c ∈ cs, c.isDigit = true) :
    ∀ c ∈ zeroPad w cs, c.isDigit = true := by
  intro c hc
  rw [zeroPad, List.mem_append] at hc
  rcases hc with h0 | h1
  · have := List.eq_of_mem_replicate h0
    subst this
    decide
  · exact h c h1

theorem matchTS_pad (w n : Nat) (hw : 0 < w) (h : n < 10 ^ w) :
    matchTS (List.replicate w 'N') (zeroPad w (natRepr n)) = true := by
  have hlen : (zeroPad w (natRepr n)).length = w :=
    zeroPad_length w _ (natRepr_length_le n w hw h)
  have hdig : ∀ c ∈ zeroPad w (natRepr n), c.isDigit = true :=
    zeroPad_digits w _ (natRepr_digits n)
  have := matchTS_digitsRun _ hdig
  rwa [hlen] at this

/-- The rendered timestamp has the claimed shape `YYYY-MM-DD HH:MM:SS UTC`
whenever the fields are within the ranges a `datetime` value guarantees. -/
theorem strftime_shape (d : DateTime) (hy : d.year < 10000) (hmo : d.month < 100)
    (hd : d.day < 100) (hh : d.hour < 100) (hmi : d.minute < 100)
    (hs : d.second < 100) :
    matchTS tsPattern (strftimeTimestamp d).toList = true := by
  have ep : tsPattern = List.replicate 4 'N' ++ ('-' ::
      (List.replicate 2 'N' ++ ('-' :: (List.replicate 2 'N' ++ (' ' ::
      (List.replicate 2 'N' ++ (':' :: (List.replicate 2 'N' ++ (':' ::
      (List.replicate 2 'N' ++ " UTC".toList)))))))))) := by decide
  have ed : (strftimeTimestamp d).toList = zeroPad 4 (natRepr d.year) ++ ('-' ::
      (zeroPad 2 (natRepr d.month) ++ ('-' :: (zeroPad 2 (natRepr d.day) ++ (' ' ::
      (zeroPad 2 (natRepr d.hour) ++ (':' :: (zeroPad 2 (natRepr d.minute) ++ (':' ::
      (zeroPad 2 (natRepr d.second) ++ " UTC".toList)))))))))) := by
    simp [strftimeTimestamp, List.append_assoc]
  rw [ep, ed]
  have h4 : (10:Nat) ^ 4 = 10000 := by norm_num
  have h2 : (10:Nat) ^ 2 = 100 := by norm_num
  refine matchTS_append (matchTS_pad 4 d.year (by omega) (by omega)) ?_
  refine matchTS_cons '-' (by decide) ?_
  refine matchTS_append (matchTS_pad 2 d.month (by omega) (by omega)) ?_
  refine matchTS_cons '-' (by decide) ?_
  refine matchTS_append (matchTS_pad 2 d.day (by omega) (by omega)) ?_
  refine matchTS_cons ' ' (by decide) ?_
  refine matchTS_append (matchTS_pad 2 d.hour (by omega) (by omega)) ?_
  refine matchTS_cons ':' (by decide) ?_
  refine matchTS_append (matchTS_pad 2 d.minute (by omega) (by omega)) ?_
  refine matchTS_cons ':' (by decide) ?_
  exact matchTS_append (matchTS_pad 2 d.second (by omega) (by omega)) (by decide)

theorem containsStr_sub_congr {s a b : String} (h : a.data = b.data)
    (hc : ContainsStr s a) : ContainsStr s b := by
  obtain ⟨p, q, hp⟩ := hc
  exact ⟨p, q, by rw [hp, h]⟩

theorem containsStr_pair (P x y : String) : ContainsStr (P ++ x ++ y) (x ++ y) :=
  containsStr_of_data P.data [] (by simp [String.data_append, List.append_assoc])

theorem containsStr_triple (P x y z : String) :
    ContainsStr (P ++ x ++ y ++ z) (x ++ y ++ z) :=
  containsStr_of_data P.data [] (by simp [String.data_append, List.append_assoc])

/-- A configuration with every key present, used to instantiate theorems. -/
def cfgSample : ConfigData :=
  { mattermost := some { webhook_url := some "https://chat.example/hooks/k1"
                         channel := some "alerts" }
    monitored_namespace := some "my-namespace"
    notifications := some { shell_access := some true, port_forward := some true }
    cluster_name := some "prod" }

/-- A sample instant, used to instantiate theorems. -/
def nowSample : DateTime :=
  { year := 2026, month := 10, day := 12, hour := 3, minute := 4, second := 5 }

/-- The admission request of the spec's concrete scenario. -/
def arExec : AdmissionRequest :=
  { uid := none
    kind := some { kind := some "PodExecOptions" }
    namespace_ := some "my-namespace"
    name := some "pod-a"
    userInfo := some { username := some "alice", groups := none } }

/-- A configuration whose webhook URL is unset (the `mattermost` key is
absent), used to instantiate the empty-webhook theorems. -/
def cfgNoHook : ConfigData :=
  { mattermost := none
    monitored_namespace := some "my-namespace"
    notifications := none
    cluster_name := none }

/-- C1: the Classifier emits a ShellAccess event iff `kind.kind` is exactly
`"PodExecOptions"` and the request's namespace equals the monitored
namespace; a PortForward event iff `kind.kind` is exactly
`"PodPortForwardOptions"` and the namespace matches; and no event in every
other case (string comparisons exact and case-sensitive, an absent `kind`
substructure never matching). -/
theorem classifier_rules (cfg : ConfigData) (ar : AdmissionRequest) :
    (classify cfg ar = some SensitiveEventType.shellAccess ↔
      ar.kindKind = some "PodExecOptions" ∧
        ar.namespace_.getD "" = cfg.monitoredNamespace) ∧
    (classify cfg ar = some SensitiveEventType.portForward ↔
      ar.kindKind = some "PodPortForwardOptions" ∧
        ar.namespace_.getD "" = cfg.monitoredNamespace) ∧
    (classify cfg ar = none ↔
      (¬(ar.kindKind = some "PodExecOptions" ∧
          ar.namespace_.getD "" = cfg.monitoredNamespace) ∧
       ¬(ar.kindKind = some "PodPortForwardOptions" ∧
          ar.namespace_.getD "" = cfg.monitoredNamespace))) := by
  by_cases h1 : ar.kindKind = some "PodExecOptions" <;>
    by_cases h2 : ar.kindKind = some "PodPortForwardOptions" <;>
      by_cases h3 : ar.namespace_.getD "" = cfg.monitoredNamespace <;>
        simp_all [classify, is_shell_access, is_port_forward]

/-- C2: for every structurally valid inbound body, `/validate` responds 200
with `uid` echoed from the inbound request and `allowed = true`, for every
classification result and every outcome of the outbound call. -/
theorem validate_echoes_uid_allows (cfg : ConfigData) (ar : AdmissionRequest)
    (now : DateTime) (http : HttpOutcome) :
    (validate cfg (some { request := some ar }) now http).1 =
      ValidateResult.ok
        { apiVersion := "admission.k8s.io/v1"
          kind := "AdmissionReview"
          response := { uid := ar.uid, allowed := true } } := rfl

/-- C3: a body that is absent or lacks the `request` field makes `/validate`
answer 400, with zero classifier invocations and zero outbound calls. -/
theorem missing_request_field_rejected (cfg : ConfigData)
    (body : Option ReviewBody) (now : DateTime) (http : HttpOutcome)
    (h : body = none ∨ body = some { request := none }) :
    validate cfg body now http =
      (ValidateResult.badRequest, { classifierCalls := 0, httpCalls := [] }) := by
  rcases h with h | h <;> subst h <;> rfl

theorem missing_request_field_rejected_witness :
    validate cfgSample none nowSample (HttpOutcome.status 200) =
      (ValidateResult.badRequest, { classifierCalls := 0, httpCalls := [] }) :=
  missing_request_field_rejected cfgSample none nowSample
    (HttpOutcome.status 200) (Or.inl rfl)

theorem send_ok_call_of_url (cfg : ConfigData) (msg user url : String)
    (http : HttpOutcome) (hu : cfg.webhookUrl = some url) (hne : url ≠ "") :
    ∃ el : Option String,
      send_mattermost_notification cfg msg user http =
        Except.ok
          { calls := [{ url := url
                        payload := { channel := "#" ++ cfg.channelName
                                     username := user
                                     text := msg
                                     icon_emoji := ":warning:" }
                        timeoutSeconds := 10 }]
            warnedNotConfigured := false
            errorLogged := el } := by
  unfold send_mattermost_notification
  rw [hu]
  simp only [if_neg hne]
  cases hs : sendTryBody http with
  | ok u => exact ⟨none, rfl⟩
  | error e => exact ⟨some e, rfl⟩

/-- C4: with an empty (or absent) webhook URL the dispatcher performs zero
outbound calls, logs the configuration warning and returns normally, and
the `/validate` pipeline still answers allowed with zero outbound calls. -/
theorem empty_webhook_noop (cfg : ConfigData) (msg user : String)
    (http : HttpOutcome) (ar : AdmissionRequest) (now : DateTime)
    (h : cfg.webhookUrl = none ∨ cfg.webhookUrl = some "") :
    send_mattermost_notification cfg msg user http =
      Except.ok { calls := [], warnedNotConfigured := true, errorLogged := none } ∧
    (validate cfg (some { request := some ar }) now http).2.httpCalls = [] ∧
    (validate cfg (some { request := some ar }) now http).1 =
      ValidateResult.ok
        { apiVersion := "admission.k8s.io/v1"
          kind := "AdmissionReview"
          response := { uid := ar.uid, allowed := true } } := by
  have hsend : ∀ m u, send_mattermost_notification cfg m u http =
      Except.ok { calls := [], warnedNotConfigured := true, errorLogged := none } := by
    intro m u
    rcases h with h | h
    · unfold send_mattermost_notification
      rw [h]
    · unfold send_mattermost_notification
      rw [h]
      simp
  refine ⟨hsend msg user, ?_, rfl⟩
  have h2 : (validate cfg (some { request := some ar }) now http).2 =
      process_admission_request cfg ar now http := rfl
  rw [h2]
  unfold process_admission_request
  cases hm : pipelineMessage cfg ar now with
  | none => rfl
  | some m => simp [hsend]

theorem empty_webhook_noop_witness :
    send_mattermost_notification cfgNoHook "m" "KubeGuard" (HttpOutcome.status 200) =
      Except.ok { calls := [], warnedNotConfigured := true, errorLogged := none } ∧
    (validate cfgNoHook (some { request := some arExec }) nowSample
        (HttpOutcome.status 200)).2.httpCalls = [] ∧
    (validate cfgNoHook (some { request := some arExec }) nowSample
        (HttpOutcome.status 200)).1 =
      ValidateResult.ok
        { apiVersion := "admission.k8s.io/v1"
          kind := "AdmissionReview"
          response := { uid := arExec.uid, allowed := true } } :=
  empty_webhook_noop cfgNoHook "m" "KubeGuard" (HttpOutcome.status 200)
    arExec nowSample (Or.inl rfl)

/-- C5: every failure of the outbound call (raise or non-2xx status) is
caught inside the dispatcher: `send_mattermost_notification` returns
normally for every outcome, logging the error when a call was attempted. -/
theorem dispatcher_swallows_errors (cfg : ConfigData) (msg user : String)
    (http : HttpOutcome) :
    ∃ r : SendResult,
      send_mattermost_notification cfg msg user http = Except.ok r ∧
      (http.fails = true → ∀ url, cfg.webhookUrl = some url → url ≠ "" →
        r.errorLogged.isSome = true) := by
  cases hu : cfg.webhookUrl with
  | none =>
    refine ⟨{ calls := [], warnedNotConfigured := true, errorLogged := none }, ?_, ?_⟩
    · unfold send_mattermost_notification
      rw [hu]
    · intro _ url hurl _
      exact Option.noConfusion hurl
  | some url =>
    by_cases he : url = ""
    · subst he
      refine ⟨{ calls := [], warnedNotConfigured := true, errorLogged := none }, ?_, ?_⟩
      · unfold send_mattermost_notification
        rw [hu]
        simp
      · intro _ url2 hurl hne2
        injection hurl with h
        exact absurd h.symm hne2
    · cases hs : sendTryBody http with
      | ok u =>
        refine ⟨{ calls := [{ url := url
                              payload := { channel := "#" ++ cfg.channelName
                                           username := user
                                           text := msg
                                           icon_emoji := ":warning:" }
                              timeoutSeconds := 10 }]
                  warnedNotConfigured := false
                  errorLogged := none }, ?_, ?_⟩
        · unfold send_mattermost_notification
          rw [hu]
          simp only [if_neg he, hs]
        · intro hfail _ _ _
          exfalso
          cases http with
          | raised m => simp [sendTryBody] at hs
          | status code =>
            simp only [HttpOutcome.fails, decide_eq_true_eq] at hfail
            simp [sendTryBody, hfail] at hs
      | error e =>
        refine ⟨{ calls := [{ url := url
                              payload := { channel := "#" ++ cfg.channelName
                                           username := user
                                           text := msg
                                           icon_emoji := ":warning:" }
                              timeoutSeconds := 10 }]
                  warnedNotConfigured := false
                  errorLogged := some e }, ?_, ?_⟩
        · unfold send_mattermost_notification
          rw [hu]
          simp only [if_neg he, hs]
        · intro _ _ _ _
          rfl

theorem dispatcher_swallows_errors_witness :
    ∃ r : SendResult,
      send_mattermost_notification cfgSample "m" "KubeGuard"
          (HttpOutcome.raised "connection timed out") = Except.ok r ∧
      ((HttpOutcome.raised "connection timed out").fails = true →
        ∀ url, cfgSample.webhookUrl = some url → url ≠ "" →
          r.errorLogged.isSome = true) :=
  dispatcher_swallows_errors cfgSample "m" "KubeGuard"
    (HttpOutcome.raised "connection timed out")

/-- C6: for a non-empty webhook URL the dispatcher performs exactly one
outbound POST, whose JSON body is exactly the Mattermost payload with the
`#`-prefixed channel, the display name, the message and `:warning:`, with
a 10-second timeout — the single call happens for every HTTP outcome, so
there is no retry. -/
theorem dispatcher_single_exact_post (cfg : ConfigData) (msg user url : String)
    (http : HttpOutcome) (hu : cfg.webhookUrl = some url) (hne : url ≠ "") :
    ∃ r : SendResult,
      send_mattermost_notification cfg msg user http = Except.ok r ∧
      r.calls = [{ url := url
                   payload := { channel := "#" ++ cfg.channelName
                                username := user
                                text := msg
                                icon_emoji := ":warning:" }
                   timeoutSeconds := 10 }] := by
  obtain ⟨el, hsend⟩ := send_ok_call_of_url cfg msg user url http hu hne
  exact ⟨_, hsend, rfl⟩

theorem dispatcher_single_exact_post_witness :
    ∃ r : SendResult,
      send_mattermost_notification cfgSample "msg" "KubeGuard"
          (HttpOutcome.status 503) = Except.ok r ∧
      r.calls = [{ url := "https://chat.example/hooks/k1"
                   payload := { channel := "#" ++ cfgSample.channelName
                                username := "KubeGuard"
                                text := "msg"
                                icon_emoji := ":warning:" }
                   timeoutSeconds := 10 }] :=
  dispatcher_single_exact_post cfgSample "msg" "KubeGuard"
    "https://chat.example/hooks/k1" (HttpOutcome.status 503) rfl (by decide)

/-- C7: for the concrete request `{kind.kind: PodExecOptions,
namespace: my-namespace, name: pod-a, userInfo.username: alice}` with the
monitored namespace `my-namespace`, shell-access notifications enabled and
a non-empty webhook URL, the pipeline makes exactly one outbound call and
its message contains `alice`, `my-namespace/pod-a` and the word `shell`. -/
theorem shell_scenario (cfg : ConfigData) (now : DateTime) (http : HttpOutcome)
    (url : String) (hmon : cfg.monitoredNamespace = "my-namespace")
    (hshell : cfg.notifyShellAccess = true)
    (hu : cfg.webhookUrl = some url) (hne : url ≠ "") :
    ∃ c : HttpCall,
      (validate cfg (some { request := some arExec }) now http).2.httpCalls = [c] ∧
      ContainsStr c.payload.text "alice" ∧
      ContainsStr c.payload.text "my-namespace/pod-a" ∧
      ContainsStr c.payload.text "shell" := by
  have hmsg : pipelineMessage cfg arExec now =
      some (shellAccessMessage cfg.clusterName "alice" "my-namespace" "pod-a" now) := by
    simp [pipelineMessage, is_shell_access, arExec, AdmissionRequest.kindKind,
      get_user_info, hmon, hshell]
  obtain ⟨el, hsend⟩ := send_ok_call_of_url cfg
    (shellAccessMessage cfg.clusterName "alice" "my-namespace" "pod-a" now)
    "KubeGuard" url http hu hne
  have h2 : (validate cfg (some { request := some arExec }) now http).2 =
      process_admission_request cfg arExec now http := rfl
  refine ⟨{ url := url
            payload := { channel := "#" ++ cfg.channelName
                         username := "KubeGuard"
                         text := shellAccessMessage cfg.clusterName
                           "alice" "my-namespace" "pod-a" now
                         icon_emoji := ":warning:" }
            timeoutSeconds := 10 }, ?_, ?_, ?_, ?_⟩
  · rw [h2]
    unfold process_admission_request
    simp only [hmsg, hsend]
  · show ContainsStr (shellAccessMessage cfg.clusterName "alice"
      "my-namespace" "pod-a" now) "alice"
    unfold shellAccessMessage
    exact containsStr_append_right _ (containsStr_append_right _
      (containsStr_append_right _ (containsStr_append_right _
        (containsStr_append_right _ (containsStr_append_right _
          (containsStr_append_right _ (containsStr_append_left _
            (containsStr_self _))))))))
  · show ContainsStr (shellAccessMessage cfg.clusterName "alice"
      "my-namespace" "pod-a" now) "my-namespace/pod-a"
    unfold shellAccessMessage
    exact containsStr_append_right _ (containsStr_append_right _
      (containsStr_append_right _ (containsStr_sub_congr (by decide)
        (containsStr_triple _ _ _ _))))
  · show ContainsStr (shellAccessMessage cfg.clusterName "alice"
      "my-namespace" "pod-a" now) "shell"
    unfold shellAccessMessage
    exact containsStr_append_right _ (containsStr_append_right _
      (containsStr_append_right _ (containsStr_append_right _
        (containsStr_append_right _ (containsStr_append_right _
          (containsStr_append_left _
            ⟨"` opened a ".data, " to pod `".data, by decide⟩))))))

theorem shell_scenario_witness :
    ∃ c : HttpCall,
      (validate cfgSample (some { request := some arExec }) nowSample
          (HttpOutcome.status 200)).2.httpCalls = [c] ∧
      ContainsStr c.payload.text "alice" ∧
      ContainsStr c.payload.text "my-namespace/pod-a" ∧
      ContainsStr c.payload.text "shell" :=
  shell_scenario cfgSample nowSample (HttpOutcome.status 200)
    "https://chat.example/hooks/k1" rfl rfl rfl (by decide)

/-- C8: for every sensitive event the formatter produces a message
containing the event-type banner, the cluster label, the acting user, the
target `namespace/podName`, the fixed per-type action description, and a
timestamp rendered in the shape `YYYY-MM-DD HH:MM:SS UTC`; absent fields
were already defaulted upstream (`get_user_info` yields `unknown` for an
absent user), and the formatter is a total function. -/
theorem formatter_fields (e : SensitiveEventType) (cluster user ns pod : String)
    (now : DateTime) (hy : now.year < 10000) (hmo : now.month < 100)
    (hd : now.day < 100) (hh : now.hour < 100) (hmi : now.minute < 100)
    (hs : now.second < 100) :
    ContainsStr (formatMessage e cluster user ns pod now)
      (match e with
       | .shellAccess => "**Shell Access Alert**"
       | .portForward => "**Port Forward Alert**") ∧
    ContainsStr (formatMessage e cluster user ns pod now) cluster ∧
    ContainsStr (formatMessage e cluster user ns pod now) user ∧
    ContainsStr (formatMessage e cluster user ns pod now) (ns ++ "/" ++ pod) ∧
    ContainsStr (formatMessage e cluster user ns pod now)
      (match e with
       | .shellAccess => "opened a shell to pod"
       | .portForward => "created a port-forward to pod") ∧
    ContainsStr (formatMessage e cluster user ns pod now)
      ("Time: " ++ strftimeTimestamp now) ∧
    matchTS tsPattern (strftimeTimestamp now).toList = true ∧
    (∀ ar : AdmissionRequest, ar.userInfo = none →
      get_user_info ar = ("unknown", [])) := by
  cases e with
  | shellAccess =>
    refine ⟨?_, ?_, ?_, ?_, ?_, ?_, strftime_shape now hy hmo hd hh hmi hs,
      fun ar har => by simp [get_user_info, har]⟩
    · show ContainsStr (shellAccessMessage cluster user ns pod now)
        "**Shell Access Alert**"
      unfold shellAccessMessage
      exact containsStr_append_right _ (containsStr_append_right _
        (containsStr_append_right _ (containsStr_append_right _
          (containsStr_append_right _ (containsStr_append_right _
            (containsStr_append_right _ (containsStr_append_right _
              (containsStr_append_right _ (containsStr_append_right _
                (containsStr_append_right _
                  ⟨":warning: ".data, " on cluster `".data, by decide⟩))))))))))
    · show ContainsStr (shellAccessMessage cluster user ns pod now) cluster
      unfold shellAccessMessage
      exact containsStr_append_right _ (containsStr_append_right _
        (containsStr_append_right _ (containsStr_append_right _
          (containsStr_append_right _ (containsStr_append_right _
            (containsStr_append_right _ (containsStr_append_right _
              (containsStr_append_right _ (containsStr_append_right _
                (containsStr_append_left _ (containsStr_self _)))))))))))
    · show ContainsStr (shellAccessMessage cluster user ns pod now) user
      unfold shellAccessMessage
      exact containsStr_append_right _ (containsStr_append_right _
        (containsStr_append_right _ (containsStr_append_right _
          (containsStr_append_right _ (containsStr_append_right _
            (containsStr_append_right _ (containsStr_append_left _
              (containsStr_self _))))))))
    · show ContainsStr (shellAccessMessage cluster user ns pod now)
        (ns ++ "/" ++ pod)
      unfold shellAccessMessage
      exact containsStr_append_right _ (containsStr_append_right _
        (containsStr_append_right _ (containsStr_triple _ _ _ _)))
    · show ContainsStr (shellAccessMessage cluster user ns pod now)
        "opened a shell to pod"
      unfold shellAccessMessage
      exact containsStr_append_right _ (containsStr_append_right _
        (containsStr_append_right _ (containsStr_append_right _
          (containsStr_append_right _ (containsStr_append_right _
            (containsStr_append_left _
              ⟨"` ".data, " `".data, by decide⟩))))))
    · show ContainsStr (shellAccessMessage cluster user ns pod now)
        ("Time: " ++ strftimeTimestamp now)
      unfold shellAccessMessage
      exact containsStr_pair _ _ _
  | portForward =>
    refine ⟨?_, ?_, ?_, ?_, ?_, ?_, strftime_shape now hy hmo hd hh hmi hs,
      fun ar har => by simp [get_user_info, har]⟩
    · show ContainsStr (portForwardMessage cluster user ns pod now)
        "**Port Forward Alert**"
      unfold portForwardMessage
      exact containsStr_append_right _ (containsStr_append_right _
        (containsStr_append_right _ (containsStr_append_right _
          (containsStr_append_right _ (containsStr_append_right _
            (containsStr_append_right _ (containsStr_append_right _
              (containsStr_append_right _ (containsStr_append_right _
                (containsStr_append_right _
                  ⟨":warning: ".data, " on cluster `".data, by decide⟩))))))))))
    · show ContainsStr (portForwardMessage cluster user ns pod now) cluster
      unfold portForwardMessage
      exact containsStr_append_right _ (containsStr_append_right _
        (containsStr_append_right _ (containsStr_append_right _
          (containsStr_append_right _ (containsStr_append_right _
            (containsStr_append_right _ (containsStr_append_right _
              (containsStr_append_right _ (containsStr_append_right _
                (containsStr_append_left _ (containsStr_self _)))))))))))
    · show ContainsStr (portForwardMessage cluster user ns pod now) user
      unfold portForwardMessage
      exact containsStr_append_right _ (containsStr_append_right _
        (containsStr_append_right _ (containsStr_append_right _
          (containsStr_append_right _ (containsStr_append_right _
            (containsStr_append_right _ (containsStr_append_left _
              (containsStr_self _))))))))
    · show ContainsStr (portForwardMessage cluster user ns pod now)
        (ns ++ "/" ++ pod)
      unfold portForwardMessage
      exact containsStr_append_right _ (containsStr_append_right _
        (containsStr_append_right _ (containsStr_triple _ _ _ _)))
    · show ContainsStr (portForwardMessage cluster user ns pod now)
        "created a port-forward to pod"
      unfold portForwardMessage
      exact containsStr_append_right _ (containsStr_append_right _
        (containsStr_append_right _ (containsStr_append_right _
          (containsStr_append_right _ (containsStr_append_right _
            (containsStr_append_left _
              ⟨"` ".data, " `".data, by decide⟩))))))
    · show ContainsStr (portForwardMessage cluster user ns pod now)
        ("Time: " ++ strftimeTimestamp now)
      unfold portForwardMessage
      exact containsStr_pair _ _ _

theorem formatter_fields_witness :
    ContainsStr (formatMessage SensitiveEventType.shellAccess "prod" "bob"
      "ns1" "p1" nowSample) "**Shell Access Alert**" ∧
    ContainsStr (formatMessage SensitiveEventType.shellAccess "prod" "bob"
      "ns1" "p1" nowSample) "prod" ∧
    ContainsStr (formatMessage SensitiveEventType.shellAccess "prod" "bob"
      "ns1" "p1" nowSample) "bob" ∧
    ContainsStr (formatMessage SensitiveEventType.shellAccess "prod" "bob"
      "ns1" "p1" nowSample) ("ns1" ++ "/" ++ "p1") ∧
    ContainsStr (formatMessage SensitiveEventType.shellAccess "prod" "bob"
      "ns1" "p1" nowSample) "opened a shell to pod" ∧
    ContainsStr (formatMessage SensitiveEventType.shellAccess "prod" "bob"
      "ns1" "p1" nowSample) ("Time: " ++ strftimeTimestamp nowSample) ∧
    matchTS tsPattern (strftimeTimestamp nowSample).toList = true ∧
    (∀ ar : AdmissionRequest, ar.userInfo = none →
      get_user_info ar = ("unknown", [])) :=
  formatter_fields SensitiveEventType.shellAccess "prod" "bob" "ns1" "p1"
    nowSample (by decide) (by decide) (by decide) (by decide) (by decide)
    (by decide)

/-- C9 counterexample: for the inbound body that lacks the `request` field,
`/mutate` does not return an allowed admission response at all — the
unguarded subscript raises and the handler answers 500. -/
theorem mutate_missing_request_not_allowed :
    (mutate (some { request := none })).1 =
      MutateResult.internalError "KeyError: request" := rfl

/-- C9 (amended): `/mutate` never consults the classifier or dispatcher for
any body, and for every inbound body that contains a `request` field it
returns allowed with the echoed uid, `patchType:"JSONPatch"` and the
base64-encoded empty JSON array (`"W10="`) as patch. -/
theorem mutate_noop_allow :
    (∀ body : Option ReviewBody,
      (mutate body).2 = { classifierCalls := 0, httpCalls := [] }) ∧
    (∀ ar : AdmissionRequest,
      (mutate (some { request := some ar })).1 =
        MutateResult.ok
          { apiVersion := "admission.k8s.io/v1"
            kind := "AdmissionReview"
            response := { uid := ar.uid
                          allowed := true
                          patchType := "JSONPatch"
                          patch := base64Encode (strBytes "[]") } }) ∧
    base64Encode (strBytes "[]") = "W10=" := by
  refine ⟨?_, fun ar => rfl, by decide⟩
  intro body
  rcases body with _ | ⟨_ | ar⟩ <;> rfl

/-- C10: for a body that is absent or lacks the `request` field, `/mutate`
answers with a server error (500) while `/validate` answers with the
client error (400) for the same input. -/
theorem mutate_malformed_500_validate_400 (cfg : ConfigData)
    (body : Option ReviewBody) (now : DateTime) (http : HttpOutcome)
    (h : body = none ∨ body = some { request := none }) :
    (mutate body).1.isInternalError = true ∧
    (validate cfg body now http).1 = ValidateResult.badRequest := by
  rcases h with h | h <;> subst h <;> exact ⟨rfl, rfl⟩

theorem mutate_malformed_500_validate_400_witness :
    (mutate (some { request := none })).1.isInternalError = true ∧
    (validate cfgSample (some { request := none }) nowSample
        (HttpOutcome.status 200)).1 = ValidateResult.badRequest :=
  mutate_malformed_500_validate_400 cfgSample (some { request := none })
    nowSample (HttpOutcome.status 200) (Or.inr rfl)
